import Mathlib

/-!
Verification of the `inner-rs` crate (`src/lib.rs`): the `inner!`, `some!` and
`ok!` macros and the `IntoResult` trait.

Shallow embedding. The Rust types `Result<T, E>` and `Option<T>` are mirrored by
`RResult` and `ROption`. Every expansion arm of the three macros is a match
expression at the call site; each arm is embedded as a Lean function. A Rust
expression that may `panic!` is modelled as an `ExecResult`: either a returned
value or a panic carrying the message string. A caller-supplied fallback
expression is itself an arbitrary expression, so fallback parameters are
`ExecResult`-valued.

A variant-selector pattern `$i(q)` (a single-payload enum variant used as a
pattern, lib.rs lines 162-174, 192-197, 218-237, 253-286) is embedded by its
denotation `sel : α → Option β`: `sel x = some q` exactly when `x` is `$i(q)`,
and `sel x = none` when `x` does not match the variant. The concrete `Fruit`
enumeration from the crate tests instantiates it.
-/

/-- Rust `Result<T, E>` (two-armed outcome). -/
inductive RResult (T E : Type) : Type where
  | Ok : T → RResult T E
  | Err : E → RResult T E
deriving DecidableEq, Repr

/-- Rust `Option<T>` (optional-shaped value). -/
inductive ROption (T : Type) : Type where
  | Some : T → ROption T
  | None : ROption T
deriving DecidableEq, Repr

/-- Outcome of evaluating a generated expression: a normal value, or a panic
carrying the panic message. -/
inductive ExecResult (A : Type) : Type where
  | ret : A → ExecResult A
  | panicked : String → ExecResult A
deriving DecidableEq, Repr

/-- Functorial action on the value of a non-panicking outcome; a panic
propagates unchanged (models wrapping the value of a sub-expression). -/
def ExecResult.map {A B : Type} (f : A → B) : ExecResult A → ExecResult B
  | .ret a => .ret (f a)
  | .panicked m => .panicked m

/-- Rust `Option::ok_or`: `Some t` becomes `Ok t`, `None` becomes `Err e`. -/
def ROption.ok_or {T E : Type} : ROption T → E → RResult T E
  | .Some t, _ => .Ok t
  | .None, e => .Err e

/-- The `IntoResult` trait (lib.rs lines 141-143): converts a value into a
Result. -/
class IntoResult (α : Type) (T E : outParam Type) where
  into_result : α → RResult T E

/-- Built-in impl for `Result` (lib.rs lines 145-150): returns `self`. -/
instance instIntoResultRResult {T E : Type} : IntoResult (RResult T E) T E where
  into_result s := s

/-- Built-in impl for `Option` (lib.rs lines 152-157): `self.ok_or(())`. -/
instance instIntoResultROption {T : Type} : IntoResult (ROption T) T Unit where
  into_result s := s.ok_or ()

/-- The single-quote character used by the panic format string. -/
def squote : String := String.singleton (Char.ofNat 39)

/-- The panic message: the format string `Unexpected value found inside`
followed by `stringify!($x)` — the unparsed source text of the target
expression — between single quotes (lib.rs lines 195 and 203). -/
def panicMsg (src : String) : String :=
  "Unexpected value found inside " ++ squote ++ src ++ squote

/-! ### `inner!` (lib.rs lines 161-206) -/

/-- Arm `inner!($x, if $i, else |$e| $b)` (lib.rs 162-167): match on the variant;
on match yield the payload, otherwise bind the whole item to `$e` and
evaluate `$b`. -/
def inner_if_else_bind {α β : Type} (x : α) (sel : α → Option β)
    (b : α → ExecResult β) : ExecResult β :=
  match sel x with
  | some q => .ret q
  | none => b x

/-- Arm `inner!($x, if $i, else $b)` (lib.rs 169-174). -/
def inner_if_else {α β : Type} (x : α) (sel : α → Option β)
    (b : ExecResult β) : ExecResult β :=
  match sel x with
  | some q => .ret q
  | none => b

/-- Arm `inner!($x, else |$e| $b)` (lib.rs 176-182): convert via `into_result`,
yield the `Ok` payload, else bind the `Err` payload to `$e` and
evaluate `$b`. -/
def inner_else_bind {α T E : Type} [IntoResult α T E] (x : α)
    (b : E → ExecResult T) : ExecResult T :=
  match IntoResult.into_result x with
  | RResult.Ok q => .ret q
  | RResult.Err e => b e

/-- Arm `inner!($x, else $b)` (lib.rs 184-190). -/
def inner_else {α T E : Type} [IntoResult α T E] (x : α)
    (b : ExecResult T) : ExecResult T :=
  match IntoResult.into_result x with
  | RResult.Ok q => .ret q
  | _ => b

/-- Arm `inner!($x, if $i)` (lib.rs 192-197): on mismatch, panic with the message
embedding `stringify!($x)`. -/
def inner_if {α β : Type} (x : α) (sel : α → Option β)
    (src : String) : ExecResult β :=
  match sel x with
  | some q => .ret q
  | none => .panicked (panicMsg src)

/-- Arm `inner!($x)` — embedded as `inner_plain` (lib.rs 199-205): convert via `into_result`; on the `Ok` arm
yield the payload, otherwise panic with the message embedding
`stringify!($x)`. -/
def inner_plain {α T E : Type} [IntoResult α T E] (x : α)
    (src : String) : ExecResult T :=
  match IntoResult.into_result x with
  | RResult.Ok q => .ret q
  | _ => .panicked (panicMsg src)

/-! ### `some!` (lib.rs lines 217-238) -/

/-- Arm `some!($x, if $i, else |$e| $b)` (lib.rs 218-223). -/
def some_if_else_bind {α β : Type} (x : α) (sel : α → Option β)
    (b : α → ExecResult (ROption β)) : ExecResult (ROption β) :=
  match sel x with
  | some q => .ret (ROption.Some q)
  | none => b x

/-- Arm `some!($x, if $i, else $b)` (lib.rs 225-230). -/
def some_if_else {α β : Type} (x : α) (sel : α → Option β)
    (b : ExecResult (ROption β)) : ExecResult (ROption β) :=
  match sel x with
  | some q => .ret (ROption.Some q)
  | none => b

/-- Arm `some!($x, if $i)` (lib.rs 232-237). -/
def some_if {α β : Type} (x : α) (sel : α → Option β) :
    ExecResult (ROption β) :=
  match sel x with
  | some q => .ret (ROption.Some q)
  | none => .ret ROption.None

/-! ### `ok!` (lib.rs lines 252-287) -/

/-- Arm `ok!($x, if $i, else |$e| $b)` (lib.rs 253-258). -/
def ok_if_else_bind {α β γ : Type} (x : α) (sel : α → Option β)
    (b : α → ExecResult (RResult β γ)) : ExecResult (RResult β γ) :=
  match sel x with
  | some q => .ret (RResult.Ok q)
  | none => b x

/-- Arm `ok!($x, if $i, else $b)` (lib.rs 260-265). -/
def ok_if_else {α β γ : Type} (x : α) (sel : α → Option β)
    (b : ExecResult (RResult β γ)) : ExecResult (RResult β γ) :=
  match sel x with
  | some q => .ret (RResult.Ok q)
  | none => b

/-- Arm `ok!($x, if $i, or |$e| $b)` (lib.rs 267-272): on mismatch bind the whole
item to `$e`, evaluate `$b`, and wrap its value in `Err`. -/
def ok_if_or_bind {α β γ : Type} (x : α) (sel : α → Option β)
    (b : α → ExecResult γ) : ExecResult (RResult β γ) :=
  match sel x with
  | some q => .ret (RResult.Ok q)
  | none => (b x).map RResult.Err

/-- Arm `ok!($x, if $i, or $b)` (lib.rs 274-279): on mismatch evaluate `$b` and
wrap its value in `Err`. -/
def ok_if_or {α β γ : Type} (x : α) (sel : α → Option β)
    (b : ExecResult γ) : ExecResult (RResult β γ) :=
  match sel x with
  | some q => .ret (RResult.Ok q)
  | none => b.map RResult.Err

/-- Arm `ok!($x, if $i)` (lib.rs 281-286): on mismatch yield `Err(n)` where `n`
is the entire non-matching item. -/
def ok_if {α β : Type} (x : α) (sel : α → Option β) :
    ExecResult (RResult β α) :=
  match sel x with
  | some q => .ret (RResult.Ok q)
  | none => .ret (RResult.Err x)

/-! ### The `Fruit` enumeration from the crate tests and docs -/

/-- The two-variant test enumeration (`Apple(i32)` / `Orange(i16)`). -/
inductive Fruit : Type where
  | Apple : Int → Fruit
  | Orange : Int → Fruit
deriving DecidableEq, Repr

/-- Denotation of the pattern `Fruit::Apple(q)`. -/
def Fruit.apple : Fruit → Option Int
  | .Apple i => some i
  | _ => none

/-- Denotation of the pattern `Fruit::Orange(q)`. -/
def Fruit.orange : Fruit → Option Int
  | .Orange i => some i
  | _ => none

/-! ### Stateful instantiation for the single-evaluation law

The macros receive the target as an *expression* `$x` and mention it exactly
once in the generated `match $x { ... }`: the target is evaluated once and
its value is then matched. To make evaluation observable, the target is here
a state transformer `ex : σ → α × σ` (its value paired with the updated
state). Each form below mirrors the generated code: run `ex` once, match the
resulting value. -/

/-- Stateful `inner!($x, if $i, else |$e| $b)`. -/
def innerS_if_else_bind {σ α β : Type} (ex : σ → α × σ) (sel : α → Option β)
    (b : α → ExecResult β) (s : σ) : ExecResult β × σ :=
  match ex s with
  | (x, s1) =>
    (match sel x with
     | some q => .ret q
     | none => b x, s1)

/-- Stateful `inner!($x, if $i, else $b)`. -/
def innerS_if_else {σ α β : Type} (ex : σ → α × σ) (sel : α → Option β)
    (b : ExecResult β) (s : σ) : ExecResult β × σ :=
  match ex s with
  | (x, s1) =>
    (match sel x with
     | some q => .ret q
     | none => b, s1)

/-- Stateful `inner!($x, else |$e| $b)`. -/
def innerS_else_bind {σ α T E : Type} [IntoResult α T E] (ex : σ → α × σ)
    (b : E → ExecResult T) (s : σ) : ExecResult T × σ :=
  match ex s with
  | (x, s1) =>
    (match IntoResult.into_result x with
     | RResult.Ok q => .ret q
     | RResult.Err e => b e, s1)

/-- Stateful `inner!($x, else $b)`. -/
def innerS_else {σ α T E : Type} [IntoResult α T E] (ex : σ → α × σ)
    (b : ExecResult T) (s : σ) : ExecResult T × σ :=
  match ex s with
  | (x, s1) =>
    (match IntoResult.into_result x with
     | RResult.Ok q => .ret q
     | _ => b, s1)

/-- Stateful `inner!($x, if $i)`. -/
def innerS_if {σ α β : Type} (ex : σ → α × σ) (sel : α → Option β)
    (src : String) (s : σ) : ExecResult β × σ :=
  match ex s with
  | (x, s1) =>
    (match sel x with
     | some q => .ret q
     | none => .panicked (panicMsg src), s1)

/-- Stateful `inner!($x)`. -/
def innerS {σ α T E : Type} [IntoResult α T E] (ex : σ → α × σ)
    (src : String) (s : σ) : ExecResult T × σ :=
  match ex s with
  | (x, s1) =>
    (match IntoResult.into_result x with
     | RResult.Ok q => .ret q
     | _ => .panicked (panicMsg src), s1)

/-- Stateful `some!($x, if $i, else |$e| $b)`. -/
def someS_if_else_bind {σ α β : Type} (ex : σ → α × σ) (sel : α → Option β)
    (b : α → ExecResult (ROption β)) (s : σ) : ExecResult (ROption β) × σ :=
  match ex s with
  | (x, s1) =>
    (match sel x with
     | some q => .ret (ROption.Some q)
     | none => b x, s1)

/-- Stateful `some!($x, if $i, else $b)`. -/
def someS_if_else {σ α β : Type} (ex : σ → α × σ) (sel : α → Option β)
    (b : ExecResult (ROption β)) (s : σ) : ExecResult (ROption β) × σ :=
  match ex s with
  | (x, s1) =>
    (match sel x with
     | some q => .ret (ROption.Some q)
     | none => b, s1)

/-- Stateful `some!($x, if $i)`. -/
def someS_if {σ α β : Type} (ex : σ → α × σ) (sel : α → Option β)
    (s : σ) : ExecResult (ROption β) × σ :=
  match ex s with
  | (x, s1) =>
    (match sel x with
     | some q => .ret (ROption.Some q)
     | none => .ret ROption.None, s1)

/-- Stateful `ok!($x, if $i, else |$e| $b)`. -/
def okS_if_else_bind {σ α β γ : Type} (ex : σ → α × σ) (sel : α → Option β)
    (b : α → ExecResult (RResult β γ)) (s : σ) :
    ExecResult (RResult β γ) × σ :=
  match ex s with
  | (x, s1) =>
    (match sel x with
     | some q => .ret (RResult.Ok q)
     | none => b x, s1)

/-- Stateful `ok!($x, if $i, else $b)`. -/
def okS_if_else {σ α β γ : Type} (ex : σ → α × σ) (sel : α → Option β)
    (b : ExecResult (RResult β γ)) (s : σ) : ExecResult (RResult β γ) × σ :=
  match ex s with
  | (x, s1) =>
    (match sel x with
     | some q => .ret (RResult.Ok q)
     | none => b, s1)

/-- Stateful `ok!($x, if $i, or |$e| $b)`. -/
def okS_if_or_bind {σ α β γ : Type} (ex : σ → α × σ) (sel : α → Option β)
    (b : α → ExecResult γ) (s : σ) : ExecResult (RResult β γ) × σ :=
  match ex s with
  | (x, s1) =>
    (match sel x with
     | some q => .ret (RResult.Ok q)
     | none => (b x).map RResult.Err, s1)

/-- Stateful `ok!($x, if $i, or $b)`. -/
def okS_if_or {σ α β γ : Type} (ex : σ → α × σ) (sel : α → Option β)
    (b : ExecResult γ) (s : σ) : ExecResult (RResult β γ) × σ :=
  match ex s with
  | (x, s1) =>
    (match sel x with
     | some q => .ret (RResult.Ok q)
     | none => b.map RResult.Err, s1)

/-- Stateful `ok!($x, if $i)`. -/
def okS_if {σ α β : Type} (ex : σ → α × σ) (sel : α → Option β)
    (s : σ) : ExecResult (RResult β α) × σ :=
  match ex s with
  | (x, s1) =>
    (match sel x with
     | some q => .ret (RResult.Ok q)
     | none => .ret (RResult.Err x), s1)

/-- The Result-to-Option projection named by the refinement claim between
`some!` and `ok!`: `Ok q` to `Some q`, any `Err` to `None`. Stated from the
claim, to be compared with the embedded forms. -/
def result_to_option {T E : Type} : RResult T E → ROption T
  | RResult.Ok q => ROption.Some q
  | RResult.Err _ => ROption.None

/-- The `IntoResult` impl for `Fruit` from the crate test `own_enum`
(lib.rs 346-353): `Apple i` converts to `Ok i`, `Orange i` to `Err i`. -/
instance instIntoResultFruit : IntoResult Fruit Int Int where
  into_result f :=
    match f with
    | .Apple i => RResult.Ok i
    | .Orange i => RResult.Err i

/-! ### Claims -/

/-- C1: for every value in the success arm of its `into_result` conversion
with payload `p`, `inner!($x)` (no variant selector, no fallback) yields
exactly `p` and does not panic; for every value in the failure arm it
panics, and the panic message embeds the unparsed source text `src` of the
target expression. -/
theorem C1_inner_unconditional {α T E : Type} [IntoResult α T E]
    (x : α) (src : String) :
    (∀ p : T, IntoResult.into_result x = RResult.Ok p →
      inner_plain x src = ExecResult.ret p ∧
      ∀ m : String, inner_plain x src ≠ ExecResult.panicked m) ∧
    (∀ e : E, IntoResult.into_result x = RResult.Err e →
      inner_plain x src = ExecResult.panicked (panicMsg src)) ∧
    (∃ pre post : String, panicMsg src = pre ++ src ++ post) := by
  refine ⟨?_, ?_, ?_⟩
  · intro p h
    constructor
    · unfold inner_plain; rw [h]
    · intro m
      unfold inner_plain; rw [h]
      exact fun hc => ExecResult.noConfusion hc
  · intro e h
    unfold inner_plain; rw [h]
  · refine ⟨"Unexpected value found inside " ++ squote, squote, ?_⟩
    unfold panicMsg
    rw [String.append_assoc]

/-- Witness for C1 at concrete inputs: a `Result` in the success arm with
payload 7, and one in the failure arm. -/
theorem C1_inner_unconditional_witness :
    inner_plain (RResult.Ok 7 : RResult Nat Nat) "x" = ExecResult.ret 7 ∧
    inner_plain (RResult.Err 3 : RResult Nat Nat) "z" =
      ExecResult.panicked (panicMsg "z") :=
  ⟨((C1_inner_unconditional (RResult.Ok 7 : RResult Nat Nat) "x").1 7 rfl).1,
   (C1_inner_unconditional (RResult.Err 3 : RResult Nat Nat) "z").2.1 3 rfl⟩

/-- C2: for every value in the failure arm of its `into_result` conversion
with failure payload `e`, `inner!($x, else $b)` yields the fallback, and
`inner!($x, else |$e| $b)` evaluates the fallback with the binder bound to
the failure payload `e`. -/
theorem C2_inner_fallback_failure {α T E : Type} [IntoResult α T E]
    (x : α) (e : E) (b : ExecResult T) (f : E → ExecResult T)
    (h : IntoResult.into_result x = RResult.Err e) :
    inner_else x b = b ∧ inner_else_bind x f = f e := by
  constructor
  · unfold inner_else; rw [h]
  · unfold inner_else_bind; rw [h]

/-- Witness for C2: an `Option` in the failure arm (`None`), whose failure
payload under the built-in conversion is the unit value. -/
theorem C2_inner_fallback_failure_witness :
    inner_else (ROption.None : ROption Nat) (ExecResult.ret 9) =
      ExecResult.ret 9 ∧
    inner_else_bind (ROption.None : ROption Nat)
      (fun _ => ExecResult.ret 5) = ExecResult.ret 5 :=
  ⟨(C2_inner_fallback_failure (ROption.None : ROption Nat) ()
      (ExecResult.ret 9) (fun _ => ExecResult.ret 5) rfl).1,
   (C2_inner_fallback_failure (ROption.None : ROption Nat) ()
      (ExecResult.ret 9) (fun _ => ExecResult.ret 5) rfl).2⟩

/-- C3: for the variant-selector form, a matching value yields the captured
payload; a non-matching value panics when no fallback is supplied, and with
a named-binder fallback the binder receives the entire original
non-matching item `x`. -/
theorem C3_variant_selector {α β : Type} (x : α) (sel : α → Option β)
    (src : String) (f : α → ExecResult β) :
    (∀ q : β, sel x = some q → inner_if x sel src = ExecResult.ret q) ∧
    (sel x = none →
      inner_if x sel src = ExecResult.panicked (panicMsg src) ∧
      inner_if_else_bind x sel f = f x) := by
  constructor
  · intro q h
    unfold inner_if; rw [h]
  · intro h
    constructor
    · unfold inner_if; rw [h]
    · unfold inner_if_else_bind; rw [h]

/-- Witness for C3 on the `Fruit` enumeration: `Apple 15` matches the
`Apple` selector and yields 15; `Orange 15` does not match it, panics
without fallback, and the binder fallback receives the whole item
`Orange 15`. -/
theorem C3_variant_selector_witness :
    inner_if (Fruit.Apple 15) Fruit.apple "z" = ExecResult.ret 15 ∧
    inner_if (Fruit.Orange 15) Fruit.apple "z" =
      ExecResult.panicked (panicMsg "z") ∧
    inner_if_else_bind (Fruit.Orange 15) Fruit.apple
      (fun n => ExecResult.ret (if n = Fruit.Orange 15 then 1 else 0)) =
      ExecResult.ret 1 := by
  refine ⟨?_, ?_, ?_⟩
  · exact (C3_variant_selector (Fruit.Apple 15) Fruit.apple "z"
      (fun _ => ExecResult.ret 0)).1 15 rfl
  · exact ((C3_variant_selector (Fruit.Orange 15) Fruit.apple "z"
      (fun _ => ExecResult.ret 0)).2 rfl).1
  · have h := ((C3_variant_selector (Fruit.Orange 15) Fruit.apple "z"
      (fun n => ExecResult.ret (if n = Fruit.Orange 15 then 1 else 0))).2
        rfl).2
    simpa using h

/-- C4: `some!($x, if $i)` yields `Some` of the payload on match and `None`
on mismatch; on mismatch, the fallback forms yield exactly the fallback
value (it entirely replaces the absent case), the named binder receiving
the whole non-matching item. -/
theorem C4_some_laws {α β : Type} (x : α) (sel : α → Option β)
    (b : ExecResult (ROption β)) (f : α → ExecResult (ROption β)) :
    (∀ q : β, sel x = some q →
      some_if x sel = ExecResult.ret (ROption.Some q)) ∧
    (sel x = none →
      some_if x sel = ExecResult.ret ROption.None ∧
      some_if_else x sel b = b ∧
      some_if_else_bind x sel f = f x) := by
  constructor
  · intro q h
    unfold some_if; rw [h]
  · intro h
    refine ⟨?_, ?_, ?_⟩
    · unfold some_if; rw [h]
    · unfold some_if_else; rw [h]
    · unfold some_if_else_bind; rw [h]

/-- Witness for C4 mirroring the crate test `some`. -/
theorem C4_some_laws_witness :
    some_if (Fruit.Apple 15) Fruit.apple =
      ExecResult.ret (ROption.Some 15) ∧
    some_if (Fruit.Orange 15) Fruit.apple = ExecResult.ret ROption.None ∧
    some_if_else (Fruit.Orange 15) Fruit.apple
      (ExecResult.ret (ROption.Some 30)) =
      ExecResult.ret (ROption.Some 30) := by
  refine ⟨?_, ?_, ?_⟩
  · exact (C4_some_laws (Fruit.Apple 15) Fruit.apple
      (ExecResult.ret ROption.None) (fun _ => ExecResult.ret ROption.None)).1
      15 rfl
  · exact ((C4_some_laws (Fruit.Orange 15) Fruit.apple
      (ExecResult.ret ROption.None)
      (fun _ => ExecResult.ret ROption.None)).2 rfl).1
  · exact ((C4_some_laws (Fruit.Orange 15) Fruit.apple
      (ExecResult.ret (ROption.Some 30))
      (fun _ => ExecResult.ret ROption.None)).2 rfl).2.1

/-- C5: every `ok!` form yields `Ok` of the payload on match; on mismatch,
the bare form yields `Err` of the entire non-matching item, the `or` forms
wrap the fallback value in `Err` automatically (the binder form first binds
the whole item), and the `else` forms yield exactly the two-armed value the
fallback evaluates to, with no additional wrapping. -/
theorem C5_ok_laws {α β γ : Type} (x : α) (sel : α → Option β) (r : γ)
    (fo : α → ExecResult γ) (be : ExecResult (RResult β γ))
    (fe : α → ExecResult (RResult β γ)) :
    (∀ q : β, sel x = some q →
      ok_if x sel = ExecResult.ret (RResult.Ok q) ∧
      ok_if_or x sel (ExecResult.ret r) = ExecResult.ret (RResult.Ok q) ∧
      ok_if_or_bind x sel fo = ExecResult.ret (RResult.Ok q) ∧
      ok_if_else x sel be = ExecResult.ret (RResult.Ok q) ∧
      ok_if_else_bind x sel fe = ExecResult.ret (RResult.Ok q)) ∧
    (sel x = none →
      ok_if x sel = ExecResult.ret (RResult.Err x) ∧
      ok_if_or x sel (ExecResult.ret r) =
        ExecResult.ret (RResult.Err r) ∧
      ok_if_or_bind x sel fo = (fo x).map RResult.Err ∧
      ok_if_else x sel be = be ∧
      ok_if_else_bind x sel fe = fe x) := by
  constructor
  · intro q h
    refine ⟨?_, ?_, ?_, ?_, ?_⟩ <;>
      simp [ok_if, ok_if_or, ok_if_or_bind, ok_if_else, ok_if_else_bind, h]
  · intro h
    refine ⟨?_, ?_, ?_, ?_, ?_⟩ <;>
      simp [ok_if, ok_if_or, ok_if_or_bind, ok_if_else, ok_if_else_bind, h,
        ExecResult.map]

/-- Witness for C5 mirroring the crate test `ok`, including
`ok!(Fruit::Apple(15), if Fruit::Orange, or 67)` yielding `Err 67`. -/
theorem C5_ok_laws_witness :
    ok_if (Fruit.Apple 15) Fruit.apple =
      ExecResult.ret (RResult.Ok 15) ∧
    ok_if (Fruit.Orange 15) Fruit.apple =
      ExecResult.ret (RResult.Err (Fruit.Orange 15)) ∧
    ok_if_or (Fruit.Apple 15) Fruit.orange (ExecResult.ret 67) =
      ExecResult.ret (RResult.Err 67) ∧
    ok_if_else (Fruit.Orange 15) Fruit.apple
      (ExecResult.ret (RResult.Err 3)) =
      ExecResult.ret (RResult.Err 3) := by
  refine ⟨?_, ?_, ?_, ?_⟩
  · exact ((C5_ok_laws (Fruit.Apple 15) Fruit.apple 0
      (fun _ => ExecResult.ret 0) (ExecResult.ret (RResult.Err 0))
      (fun _ => ExecResult.ret (RResult.Err 0))).1 15 rfl).1
  · exact ((C5_ok_laws (Fruit.Orange 15) Fruit.apple 0
      (fun _ => ExecResult.ret 0) (ExecResult.ret (RResult.Err 0))
      (fun _ => ExecResult.ret (RResult.Err 0))).2 rfl).1
  · exact ((C5_ok_laws (Fruit.Apple 15) Fruit.orange 67
      (fun _ => ExecResult.ret 0) (ExecResult.ret (RResult.Err 0))
      (fun _ => ExecResult.ret (RResult.Err 0))).2 rfl).2.1
  · exact ((C5_ok_laws (Fruit.Orange 15) Fruit.apple 0
      (fun _ => ExecResult.ret 0) (ExecResult.ret (RResult.Err 3))
      (fun _ => ExecResult.ret (RResult.Err 0))).2 rfl).2.2.2.1

/-- C6: the two built-in `IntoResult` implementations (total deterministic
Lean functions by construction): on `Result` the conversion is the
identity, and on `Option` it sends `Some t` to `Ok t` and `None` to
`Err ()`. -/
theorem C6_into_result_builtins {T E : Type} (r : RResult T E) (t : T) :
    IntoResult.into_result r = r ∧
    IntoResult.into_result (ROption.Some t) = RResult.Ok t ∧
    IntoResult.into_result (ROption.None : ROption T) = RResult.Err () :=
  ⟨rfl, rfl, rfl⟩

/-- C10: the no-fallback optional form agrees with the no-fallback result
form composed with the Result-to-Option projection that keeps `Ok` payloads
and discards any `Err`. -/
theorem C10_some_refines_ok {α β : Type} (x : α) (sel : α → Option β) :
    some_if x sel = (ok_if x sel).map result_to_option := by
  cases h : sel x <;>
    simp [some_if, ok_if, ExecResult.map, result_to_option, h]

/-- C7: single-evaluation law. With the target expression modelled as a
state transformer `ex`, every form of `inner!`, `some!` and `ok!` runs `ex`
exactly once: the final state is the state after one evaluation of `ex`,
`(ex s).2`, whichever arm is taken, and the value is the pure form applied
to the single evaluated value `(ex s).1`. -/
theorem C7_single_evaluation :
    (∀ (σ α β : Type) (ex : σ → α × σ) (sel : α → Option β)
      (b : α → ExecResult β) (s : σ),
      innerS_if_else_bind ex sel b s =
        (inner_if_else_bind (ex s).1 sel b, (ex s).2)) ∧
    (∀ (σ α β : Type) (ex : σ → α × σ) (sel : α → Option β)
      (b : ExecResult β) (s : σ),
      innerS_if_else ex sel b s = (inner_if_else (ex s).1 sel b, (ex s).2)) ∧
    (∀ (σ α T E : Type) (_inst : IntoResult α T E) (ex : σ → α × σ)
      (b : E → ExecResult T) (s : σ),
      innerS_else_bind ex b s = (inner_else_bind (ex s).1 b, (ex s).2)) ∧
    (∀ (σ α T E : Type) (_inst : IntoResult α T E) (ex : σ → α × σ)
      (b : ExecResult T) (s : σ),
      innerS_else ex b s = (inner_else (ex s).1 b, (ex s).2)) ∧
    (∀ (σ α β : Type) (ex : σ → α × σ) (sel : α → Option β) (src : String)
      (s : σ),
      innerS_if ex sel src s = (inner_if (ex s).1 sel src, (ex s).2)) ∧
    (∀ (σ α T E : Type) (_inst : IntoResult α T E) (ex : σ → α × σ)
      (src : String) (s : σ),
      innerS ex src s = (inner_plain (ex s).1 src, (ex s).2)) ∧
    (∀ (σ α β : Type) (ex : σ → α × σ) (sel : α → Option β)
      (b : α → ExecResult (ROption β)) (s : σ),
      someS_if_else_bind ex sel b s =
        (some_if_else_bind (ex s).1 sel b, (ex s).2)) ∧
    (∀ (σ α β : Type) (ex : σ → α × σ) (sel : α → Option β)
      (b : ExecResult (ROption β)) (s : σ),
      someS_if_else ex sel b s = (some_if_else (ex s).1 sel b, (ex s).2)) ∧
    (∀ (σ α β : Type) (ex : σ → α × σ) (sel : α → Option β) (s : σ),
      someS_if ex sel s = (some_if (ex s).1 sel, (ex s).2)) ∧
    (∀ (σ α β γ : Type) (ex : σ → α × σ) (sel : α → Option β)
      (b : α → ExecResult (RResult β γ)) (s : σ),
      okS_if_else_bind ex sel b s =
        (ok_if_else_bind (ex s).1 sel b, (ex s).2)) ∧
    (∀ (σ α β γ : Type) (ex : σ → α × σ) (sel : α → Option β)
      (b : ExecResult (RResult β γ)) (s : σ),
      okS_if_else ex sel b s = (ok_if_else (ex s).1 sel b, (ex s).2)) ∧
    (∀ (σ α β γ : Type) (ex : σ → α × σ) (sel : α → Option β)
      (b : α → ExecResult γ) (s : σ),
      okS_if_or_bind ex sel b s = (ok_if_or_bind (ex s).1 sel b, (ex s).2)) ∧
    (∀ (σ α β γ : Type) (ex : σ → α × σ) (sel : α → Option β)
      (b : ExecResult γ) (s : σ),
      okS_if_or ex sel b s = (ok_if_or (ex s).1 sel b, (ex s).2)) ∧
    (∀ (σ α β : Type) (ex : σ → α × σ) (sel : α → Option β) (s : σ),
      okS_if ex sel s = (ok_if (ex s).1 sel, (ex s).2)) := by
  refine ⟨?_, ?_, ?_, ?_, ?_, ?_, ?_, ?_, ?_, ?_, ?_, ?_, ?_, ?_⟩ <;>
    intros <;> rfl

/-- C8: the panic path is exclusive to the no-fallback unconditional forms
of `inner!`. Every form of `some!` and `ok!`, and every fallback-carrying
form of `inner!`, returns a value to the caller for every input whenever
the caller-supplied fallback itself returns a value: the panic branch is
unreachable in all of those forms. -/
theorem C8_no_panic_structured {α β γ T E : Type} [IntoResult α T E]
    (x : α) (sel : α → Option β) (c : β) (g : α → β) (ct : T) (gt : E → T)
    (co : ROption β) (go : α → ROption β) (cr : RResult β γ)
    (gr : α → RResult β γ) (cg : γ) (gg : α → γ) :
    (∃ v, inner_if_else x sel (ExecResult.ret c) = ExecResult.ret v) ∧
    (∃ v, inner_if_else_bind x sel (fun n => ExecResult.ret (g n)) =
      ExecResult.ret v) ∧
    (∃ v, inner_else x (ExecResult.ret ct) = ExecResult.ret v) ∧
    (∃ v, inner_else_bind x (fun e => ExecResult.ret (gt e)) =
      ExecResult.ret v) ∧
    (∃ v, some_if x sel = ExecResult.ret v) ∧
    (∃ v, some_if_else x sel (ExecResult.ret co) = ExecResult.ret v) ∧
    (∃ v, some_if_else_bind x sel (fun n => ExecResult.ret (go n)) =
      ExecResult.ret v) ∧
    (∃ v, ok_if x sel = ExecResult.ret v) ∧
    (∃ v, ok_if_or x sel (ExecResult.ret cg) = ExecResult.ret v) ∧
    (∃ v, ok_if_or_bind x sel (fun n => ExecResult.ret (gg n)) =
      ExecResult.ret v) ∧
    (∃ v, ok_if_else x sel (ExecResult.ret cr) = ExecResult.ret v) ∧
    (∃ v, ok_if_else_bind x sel (fun n => ExecResult.ret (gr n)) =
      ExecResult.ret v) := by
  rcases hs : sel x with _ | q <;>
    rcases hr : (IntoResult.into_result x : RResult T E) with p | e <;>
      refine ⟨?_, ?_, ?_, ?_, ?_, ?_, ?_, ?_, ?_, ?_, ?_, ?_⟩ <;>
        simp [inner_if_else, inner_if_else_bind, inner_else, inner_else_bind,
          some_if, some_if_else, some_if_else_bind, ok_if, ok_if_or,
          ok_if_or_bind, ok_if_else, ok_if_else_bind, ExecResult.map, hs, hr]

/-- C9: the fallback clause does not influence the result on the
success/matching path. For every target value taking the matching arm
(respectively the success arm of the conversion), each fallback form of
`inner!`, `some!` and `ok!` returns the same result for any two choices of
fallback, so the fallback and its effects are unobservable there. -/
theorem C9_fallback_independence {α β γ T E : Type} [IntoResult α T E]
    (x : α) (sel : α → Option β) :
    (∀ q : β, sel x = some q →
      (∀ b1 b2 : ExecResult β,
        inner_if_else x sel b1 = inner_if_else x sel b2) ∧
      (∀ f1 f2 : α → ExecResult β,
        inner_if_else_bind x sel f1 = inner_if_else_bind x sel f2) ∧
      (∀ b1 b2 : ExecResult (ROption β),
        some_if_else x sel b1 = some_if_else x sel b2) ∧
      (∀ f1 f2 : α → ExecResult (ROption β),
        some_if_else_bind x sel f1 = some_if_else_bind x sel f2) ∧
      (∀ b1 b2 : ExecResult (RResult β γ),
        ok_if_else x sel b1 = ok_if_else x sel b2) ∧
      (∀ f1 f2 : α → ExecResult (RResult β γ),
        ok_if_else_bind x sel f1 = ok_if_else_bind x sel f2) ∧
      (∀ b1 b2 : ExecResult γ, ok_if_or x sel b1 = ok_if_or x sel b2) ∧
      (∀ f1 f2 : α → ExecResult γ,
        ok_if_or_bind x sel f1 = ok_if_or_bind x sel f2)) ∧
    (∀ p : T, IntoResult.into_result x = RResult.Ok p →
      (∀ b1 b2 : ExecResult T, inner_else x b1 = inner_else x b2) ∧
      (∀ f1 f2 : E → ExecResult T,
        inner_else_bind x f1 = inner_else_bind x f2)) := by
  constructor
  · intro q h
    refine ⟨?_, ?_, ?_, ?_, ?_, ?_, ?_, ?_⟩ <;> intro y1 y2 <;>
      simp [inner_if_else, inner_if_else_bind, some_if_else,
        some_if_else_bind, ok_if_else, ok_if_else_bind, ok_if_or,
        ok_if_or_bind, h]
  · intro p h
    constructor <;> intro y1 y2 <;>
      simp [inner_else, inner_else_bind, h]

/-- Witness for C9: on `Fruit.Apple 15` with the `Apple` selector, and on a
success-arm `Result`, two visibly different fallbacks (one of which
panics) give the same result. -/
theorem C9_fallback_independence_witness :
    inner_if_else (Fruit.Apple 15) Fruit.apple (ExecResult.ret 0) =
      inner_if_else (Fruit.Apple 15) Fruit.apple
        (ExecResult.panicked "boom") ∧
    inner_else (RResult.Ok 7 : RResult Nat Nat) (ExecResult.ret 0) =
      inner_else (RResult.Ok 7 : RResult Nat Nat)
        (ExecResult.panicked "boom") :=
  ⟨((C9_fallback_independence (γ := Unit) (Fruit.Apple 15) Fruit.apple).1
      15 rfl).1 (ExecResult.ret 0) (ExecResult.panicked "boom"),
   ((C9_fallback_independence (γ := Unit) (RResult.Ok 7 : RResult Nat Nat)
      (fun _ => (none : Option Unit))).2 7 rfl).1 (ExecResult.ret 0)
      (ExecResult.panicked "boom")⟩
